import Mathlib

/-!
Verification of the AEGES open-core risk/containment pipeline.

Shallow embedding of the JavaScript sources:
* `integration-kits/grok3/aeges_mock_implementation.js` — behavioral
  analyzer, containment engine, recovery manager, event manager;
* the multi-AI consensus analyzer (`MultiAIAEGESAnalyzer.calculateConsensus`);
* the enhanced integration layer's `RateLimiter`.

Numbers are modelled as `ℚ` (the JS arithmetic involved is exact decimal
arithmetic at every compared boundary), JS `undefined` as `Option`, and the
JS `x || d` defaulting idiom (which also replaces a zero number) as `jsNumOr`.
Randomness (`Math.random()`) and the clock (`Date.now()`) are passed as
explicit parameters.
-/

namespace AEGES

/-- JS `x || d` on an optional number: `undefined`/`null` and `0` both fall
back to the default `d`. -/
def jsNumOr (x : Option ℚ) (d : ℚ) : ℚ :=
  match x with
  | none => d
  | some v => if v = 0 then d else v

/-- JS truthiness of an optional string: `undefined` and `""` are falsy. -/
def jsTruthyStr : Option String → Bool
  | none => false
  | some s => s ≠ ""

/-! ## Risk Assessment Engine (`AEGESBehavioralAnalyzer`) -/

/-- `exchange_context.user_history` of a transaction. -/
structure UserHistory where
  account_age_days : Option ℚ
  previous_transactions : Option ℕ
  total_volume : Option ℚ
deriving DecidableEq

/-- The fields of a transaction record that the risk heuristics read. -/
structure TransactionRecord where
  amount : ℚ
  user_history : Option UserHistory
deriving DecidableEq

/-- Amount-tier component of `_calculateBaseRisk`. -/
def amountRisk (tx : TransactionRecord) : ℚ :=
  if 1000000 < tx.amount then 3/10
  else if 100000 < tx.amount then 2/10
  else if 10000 < tx.amount then 1/10
  else 0

/-- Account-age component of `_calculateBaseRisk`; a missing
`account_age_days` fails both `< 7` and `< 30` comparisons in JS. -/
def accountAgeRisk (tx : TransactionRecord) : ℚ :=
  match tx.user_history.bind UserHistory.account_age_days with
  | some age => if age < 7 then 4/10 else if age < 30 then 2/10 else 0
  | none => 0

/-- Prior-transaction-count component of `_calculateBaseRisk`
(`previous_transactions || 0`). -/
def txHistoryRisk (tx : TransactionRecord) : ℚ :=
  if (tx.user_history.bind UserHistory.previous_transactions).getD 0 = 0 then 3/10
  else if (tx.user_history.bind UserHistory.previous_transactions).getD 0 < 5 then 2/10
  else 0

/-- `AEGESBehavioralAnalyzer._calculateBaseRisk`: base 0.1 plus the three
additive components, capped at 0.95. -/
def calculateBaseRisk (tx : TransactionRecord) : ℚ :=
  min (1/10 + amountRisk tx + accountAgeRisk tx + txHistoryRisk tx) (95/100)

/-- `risk_indicators` of an external AI verdict. -/
structure RiskIndicators where
  anomaly_score : Option ℚ
  pattern_type : Option String
deriving DecidableEq

/-- An external AI verdict as consumed by `_integrateExternalAI`. -/
structure ExternalAI where
  confidence_score : Option ℚ
  risk_indicators : Option RiskIndicators
deriving DecidableEq

/-- `AEGESBehavioralAnalyzer._integrateExternalAI`:
`aiScore = risk_indicators?.anomaly_score || 0`,
`confidence = confidence_score || 0.5`,
`aiWeight = confidence * 0.4`, result `base*(1-aiWeight) + aiScore*aiWeight`.
No clamp is applied. -/
def integrateExternalAI (baseRisk : ℚ) (externalAI : ExternalAI) : ℚ :=
  (baseRisk * (1 - jsNumOr externalAI.confidence_score (1/2) * (4/10)))
    + jsNumOr (externalAI.risk_indicators.bind RiskIndicators.anomaly_score) 0
        * (jsNumOr externalAI.confidence_score (1/2) * (4/10))

/-- `_performRiskAssessment`: the external verdict is integrated only when
`externalAI && externalAI.risk_indicators` is truthy. -/
def enhancedRisk (tx : TransactionRecord) (externalAI : Option ExternalAI) : ℚ :=
  match externalAI with
  | some ai =>
    if ai.risk_indicators.isSome then integrateExternalAI (calculateBaseRisk tx) ai
    else calculateBaseRisk tx
  | none => calculateBaseRisk tx

/-- `AEGESBehavioralAnalyzer._calculateThreatLevel`. -/
def calculateThreatLevel (riskScore : ℚ) : String :=
  if 8/10 ≤ riskScore then "critical"
  else if 6/10 ≤ riskScore then "high"
  else if 4/10 ≤ riskScore then "medium"
  else "low"

/-- `AEGESBehavioralAnalyzer._determineAction` (switch on the threat level,
default branch `allow`). -/
def determineAction (threatLevel : String) : String :=
  if threatLevel = "critical" then "contain"
  else if threatLevel = "high" then "contain"
  else if threatLevel = "medium" then "monitor"
  else "allow"

/-! ## Containment Engine (`AEGESContainmentEngine`) -/

/-- `AEGESContainmentEngine._determineEconomicState` (switch on the severity
string, default branch `frozen`). -/
def determineEconomicState (severityLevel : String) : String :=
  if severityLevel = "critical" then "neutralized"
  else if severityLevel = "high" then "quarantined"
  else if severityLevel = "medium" then "quarantined"
  else "frozen"

/-- `AEGESContainmentEngine._getEstimatedResolutionTime`. -/
def getEstimatedResolutionTime (severityLevel : String) : String :=
  if severityLevel = "critical" then "P7D"
  else if severityLevel = "high" then "P3D"
  else if severityLevel = "medium" then "P1D"
  else "PT12H"

/-- The deterministic fields of `_generateRecoveryProtocols`;
`approval_threshold = ceil(stakeholderCount * 0.6)`, computed over ℕ as
`(6*n + 9) / 10`. -/
structure RecoveryProtocols where
  consensus_required : Bool
  stakeholder_count : ℕ
  estimated_resolution_time : String
  approval_threshold : ℕ
deriving DecidableEq

/-- `AEGESContainmentEngine._generateRecoveryProtocols`. -/
def generateRecoveryProtocols (severityLevel : String) : RecoveryProtocols :=
  { consensus_required := true
    stakeholder_count :=
      if severityLevel = "critical" then 5 else if severityLevel = "high" then 3 else 2
    estimated_resolution_time := getEstimatedResolutionTime severityLevel
    approval_threshold :=
      (6 * (if severityLevel = "critical" then 5
            else if severityLevel = "high" then 3 else 2) + 9) / 10 }

/-- A containment record. `wallet_address` is never assigned by
`activateContainment`, mirroring the source (where the status-lookup path
reads a field that no writer ever sets). The randomized
`network_propagation` record is irrelevant to every claim and elided. -/
structure Containment where
  containment_id : String
  analysis_id : String
  status : String
  economic_state : String
  activation_time : ℤ
  containment_reason : String
  severity_level : String
  recovery_protocols : RecoveryProtocols
  wallet_address : Option String
deriving DecidableEq

/-- The containment engine's two registries (JS `Map`s, insertion-ordered). -/
structure ContainmentEngineState where
  activeContainments : List (String × Containment)
  containmentHistory : List (String × Containment)
deriving DecidableEq

/-- `AEGESContainmentEngine.activateContainment`: builds the containment with
status `active` and appends it to both registries. The generated id and the
clock are explicit parameters. -/
def activateContainment (st : ContainmentEngineState)
    (containmentId analysisId containmentReason severityLevel : String)
    (now : ℤ) : Containment × ContainmentEngineState :=
  let c : Containment :=
    { containment_id := containmentId
      analysis_id := analysisId
      status := "active"
      economic_state := determineEconomicState severityLevel
      activation_time := now
      containment_reason := containmentReason
      severity_level := severityLevel
      recovery_protocols := generateRecoveryProtocols severityLevel
      wallet_address := none }
  (c, { activeContainments := st.activeContainments ++ [(containmentId, c)]
        containmentHistory := st.containmentHistory ++ [(containmentId, c)] })

/-- Milliseconds per day. -/
def msPerDay : ℤ := 24 * 60 * 60 * 1000

/-- Milliseconds per hour. -/
def msPerHour : ℤ := 60 * 60 * 1000

/-- The hard-coded 7-day maximum containment duration of
`_calculateTimeRemaining`. -/
def maxContainmentDurationMs : ℤ := 7 * msPerDay

/-- `remaining = Math.max(0, maxDuration - (now - activation))`. -/
def containmentRemainingMs (c : Containment) (now : ℤ) : ℤ :=
  max 0 (maxContainmentDurationMs - (now - c.activation_time))

/-- `AEGESContainmentEngine._calculateTimeRemaining`, including the
`P<d>DT<h>H` rendering. -/
def calculateTimeRemaining (c : Containment) (now : ℤ) : String :=
  "P" ++ toString (containmentRemainingMs c now / msPerDay)
    ++ "DT" ++ toString (containmentRemainingMs c now % msPerDay / msPerHour) ++ "H"

/-- The five equally likely results of `_getInvestigationStatus`. -/
def investigationStatuses : List String :=
  ["initiated", "evidence_gathering", "analysis", "consensus_pending", "resolution_pending"]

/-- `_getInvestigationStatus` with the uniform random draw made explicit:
`randIdx % 5` stands for `Math.floor(Math.random() * statuses.length)`. -/
def getInvestigationStatus (randIdx : ℕ) : String :=
  investigationStatuses.getD (randIdx % investigationStatuses.length) ""

/-- Substring test, JS `String.prototype.includes`. -/
def strIncludes (s t : String) : Bool :=
  (List.range (s.data.length + 1)).any (fun i => t.data.isPrefixOf (s.data.drop i))

/-- The lookup phase of `getContainmentStatus`: a truthy `containmentId` is
looked up directly; otherwise the registry is scanned for the first entry
whose analysis id contains the transaction id or whose (never-set) wallet
address equals the given one. -/
def findContainment (st : ContainmentEngineState)
    (containmentId transactionId walletAddress : Option String) : Option Containment :=
  if jsTruthyStr containmentId then
    st.activeContainments.lookup (containmentId.getD "")
  else
    (st.activeContainments.find? (fun e =>
      (jsTruthyStr transactionId && strIncludes e.2.analysis_id (transactionId.getD ""))
      || (jsTruthyStr walletAddress &&
            match e.2.wallet_address with
            | some wa => wa == walletAddress.getD ""
            | none => false))).map Prod.snd

/-- The projection returned by `getContainmentStatus`. -/
structure StatusProjection where
  containment_active : Bool
  economic_value : String
  time_remaining : Option String
  release_requirements : Option RecoveryProtocols
  investigation_status : Option String
  message : Option String
deriving DecidableEq

/-- `AEGESContainmentEngine.getContainmentStatus`; clock and random draw are
explicit parameters, and the state is read, never written. -/
def getContainmentStatus (st : ContainmentEngineState)
    (containmentId transactionId walletAddress : Option String)
    (now : ℤ) (randIdx : ℕ) : StatusProjection :=
  match findContainment st containmentId transactionId walletAddress with
  | none =>
    { containment_active := false
      economic_value := "normal"
      time_remaining := none
      release_requirements := none
      investigation_status := none
      message := some "No active containment found" }
  | some c =>
    { containment_active := true
      economic_value := c.economic_state
      time_remaining := some (calculateTimeRemaining c now)
      release_requirements := some c.recovery_protocols
      investigation_status := some (getInvestigationStatus randIdx)
      message := none }

/-! ## Pipeline decision (`AEGESSystem.processTransaction`, contain branch) -/

/-- The decision-relevant outcome of one `processTransaction` call. -/
structure TransactionOutcome where
  threat_level : String
  action_taken : String
  containment : Option Containment
  engine : ContainmentEngineState
deriving DecidableEq

/-- `AEGESSystem.processTransaction`: analyze, then activate a containment
(severity = the threat level) exactly when the recommended action is
`contain`. -/
def processTransactionDecision (st : ContainmentEngineState)
    (containmentId analysisId : String) (tx : TransactionRecord)
    (externalAI : Option ExternalAI) (now : ℤ) : TransactionOutcome :=
  let level := calculateThreatLevel (enhancedRisk tx externalAI)
  let action := determineAction level
  if action = "contain" then
    let r := activateContainment st containmentId analysisId
      ("Automated containment: " ++ level ++ " threat detected") level now
    { threat_level := level, action_taken := action, containment := some r.1, engine := r.2 }
  else
    { threat_level := level, action_taken := action, containment := none, engine := st }

/-! ## Recovery Manager (`AEGESRecoveryManager`) -/

/-- The fields of a recovery request that `initiateRecovery` assigns
directly; the deterministic sub-records (verification process, consensus
requirements) carry no per-call information and are elided. -/
structure RecoveryRequest where
  recovery_id : String
  containment_id : String
  claimant_identity : String
  evidence_package : String
  status : String
deriving DecidableEq

/-- The recovery manager's registries. -/
structure RecoveryManagerState where
  activeRecoveries : List (String × RecoveryRequest)
  recoveryHistory : List (String × RecoveryRequest)
deriving DecidableEq

/-- `AEGESRecoveryManager.initiateRecovery`: unconditionally builds a
recovery with status `initiated` and stores it in both registries. The
source consults no containment registry and performs no state check — the
manager does not even hold a reference to the containment engine. The
generated id is an explicit parameter. -/
def initiateRecovery (st : RecoveryManagerState)
    (recoveryId containmentId claimantIdentity evidencePackage : String) :
    RecoveryRequest × RecoveryManagerState :=
  let r : RecoveryRequest :=
    { recovery_id := recoveryId
      containment_id := containmentId
      claimant_identity := claimantIdentity
      evidence_package := evidencePackage
      status := "initiated" }
  (r, { activeRecoveries := st.activeRecoveries ++ [(recoveryId, r)]
        recoveryHistory := st.recoveryHistory ++ [(recoveryId, r)] })

/-! ## Rate Limiter (`RateLimiter` in the enhanced integration layer) -/

/-- A provider's `rateLimit` configuration: `requests` per `window` ms. -/
structure RateLimitConfig where
  requests : ℕ
  window : ℕ
deriving DecidableEq

/-- A window key `provider_⌊now/window⌋` (the provider/index pair; the JS
template string is injective on it since the index prints as digits). -/
def rlWindowKey (provider : String) (window now : ℕ) : String × ℕ :=
  (provider, now / window)

/-- `this.windows.get(key) || 0` over the insertion-ordered counter map. -/
def rlGet : List ((String × ℕ) × ℕ) → String × ℕ → ℕ
  | [], _ => 0
  | (k', v) :: rest, k => if k' = k then v else rlGet rest k

/-- `this.windows.set(key, v)` (replaces in place, appends if absent). -/
def rlSet : List ((String × ℕ) × ℕ) → String × ℕ → ℕ → List ((String × ℕ) × ℕ)
  | [], k, v => [(k, v)]
  | (k', v') :: rest, k, v =>
    if k' = k then (k, v) :: rest else (k', v') :: rlSet rest k v

/-- `RateLimiter.canMakeRequest`: providers without a `rateLimit` config are
never limited; otherwise the current window's counter must be below the
configured limit. -/
def canMakeRequest (cfg : Option RateLimitConfig)
    (windows : List ((String × ℕ) × ℕ)) (provider : String) (now : ℕ) : Bool :=
  match cfg with
  | none => true
  | some c => rlGet windows (rlWindowKey provider c.window now) < c.requests

/-- `RateLimiter.recordRequest`: increments the current window's counter. -/
def recordRequest (cfg : Option RateLimitConfig)
    (windows : List ((String × ℕ) × ℕ)) (provider : String) (now : ℕ) :
    List ((String × ℕ) × ℕ) :=
  match cfg with
  | none => windows
  | some c =>
    rlSet windows (rlWindowKey provider c.window now)
      (rlGet windows (rlWindowKey provider c.window now) + 1)

/-- A sequence of recorded requests at the given timestamps. -/
def recordRequests (cfg : Option RateLimitConfig) (provider : String)
    (times : List ℕ) (windows : List ((String × ℕ) × ℕ)) :
    List ((String × ℕ) × ℕ) :=
  times.foldl (fun w t => recordRequest cfg w provider t) windows

/-! ## Event Manager (`AEGESEventManager`) -/

/-- An emitted event; the payload is opaque to `emit`, and the generated
`event_id` is an explicit parameter. -/
structure AEGESEvent where
  type : String
  payload : String
  event_id : String
deriving DecidableEq

/-- A handler that may throw; the JS `try { handler(event) } catch` is the
`Except` error case. -/
abbrev EventHandler := AEGESEvent → Except String Unit

/-- The caught outcome of one handler invocation (`some` = the caught and
logged error, `none` = normal return). -/
def caughtResult : Except String Unit → Option String
  | Except.ok _ => none
  | Except.error m => some m

/-- `eventHandlers` map plus the `eventHistory` array. -/
structure EventManagerState where
  eventHandlers : List (String × List EventHandler)
  eventHistory : List AEGESEvent

/-- The handler list registered for an event type (`has` + `get`). -/
def handlersFor (st : EventManagerState) (eventType : String) : List EventHandler :=
  (st.eventHandlers.lookup eventType).getD []

/-- The `forEach` loop of `emit`: every handler is invoked in order and its
outcome caught individually, so a throwing handler never prevents the
remaining ones from running. -/
def runHandlers (hs : List EventHandler) (e : AEGESEvent) : List (Option String) :=
  hs.foldl (fun acc h => acc ++ [caughtResult (h e)]) []

/-- `AEGESEventManager.emit`: appends the event to the history, then runs
every registered handler under an individual catch; returns the new state
and the per-handler outcomes. -/
def emit (st : EventManagerState) (eventType payload eventId : String) :
    EventManagerState × List (Option String) :=
  let e : AEGESEvent := { type := eventType, payload := payload, event_id := eventId }
  ({ st with eventHistory := st.eventHistory ++ [e] },
   runHandlers (handlersFor st eventType) e)

/-! ## Multi-AI Consensus (`MultiAIAEGESAnalyzer.calculateConsensus`) -/

/-- One collected provider analysis (an entry of the `aiAnalyses` map; the
provider name does not influence the consensus arithmetic). -/
structure ProviderAnalysis where
  error : Bool
  confidence_score : Option ℚ
  risk_indicators : Option RiskIndicators
deriving DecidableEq

/-- The survivor filter `!analysis.error && analysis.confidence_score > 0`
(an absent confidence fails the `> 0` comparison in JS). -/
def validAnalysis (a : ProviderAnalysis) : Bool :=
  !a.error &&
    (match a.confidence_score with
     | some c => decide (0 < c)
     | none => false)

/-- `const weight = analysis.confidence_score || 0.5`. -/
def analysisWeight (a : ProviderAnalysis) : ℚ :=
  jsNumOr a.confidence_score (1/2)

/-- `const riskScore = analysis.risk_indicators?.anomaly_score || 0`. -/
def analysisRisk (a : ProviderAnalysis) : ℚ :=
  jsNumOr (a.risk_indicators.bind RiskIndicators.anomaly_score) 0

/-- The pattern a survivor votes for: `analysis.risk_indicators?.pattern_type`
guarded by JS truthiness (an empty string casts no vote). -/
def analysisPattern (a : ProviderAnalysis) : Option String :=
  match a.risk_indicators.bind RiskIndicators.pattern_type with
  | some p => if p = "" then none else some p
  | none => none

/-- `patternVotes.set(pattern, (patternVotes.get(pattern) || 0) + weight)` on
an insertion-ordered map: an existing pattern keeps its first-seen position. -/
def bumpVote : List (String × ℚ) → String → ℚ → List (String × ℚ)
  | [], p, w => [(p, w)]
  | (q, v) :: rest, p, w =>
    if q = p then (q, v + w) :: rest else (q, v) :: bumpVote rest p w

/-- One iteration of the vote-collection loop: a survivor with a truthy
pattern tag adds its weight to that pattern's tally. -/
def voteStep (votes : List (String × ℚ)) (a : ProviderAnalysis) : List (String × ℚ) :=
  match analysisPattern a with
  | some p => bumpVote votes p (analysisWeight a)
  | none => votes

/-- The vote-collection loop over the survivors, in iteration order. -/
def patternVotes (analyses : List ProviderAnalysis) : List (String × ℚ) :=
  analyses.foldl voteStep []

/-- One iteration of the winner-selection loop
(`if (votes > maxVotes) { maxVotes = votes; consensusPattern = pattern }`):
a strict comparison, so ties keep the earlier entry. -/
def pickMax (best pv : String × ℚ) : String × ℚ :=
  if pv.2 > best.2 then pv else best

/-- The winner-selection loop, started from
`consensusPattern = 'unknown', maxVotes = 0`. -/
def selectConsensusPattern (votes : List (String × ℚ)) : String × ℚ :=
  votes.foldl pickMax ("unknown", 0)

/-- The default `this.consensusThreshold = 0.6` set in the constructor. -/
def consensusThresholdDefault : ℚ := 6/10

/-- The consensus fields the claims are about: the `consensus_reached` flag,
the aggregated analysis' `anomaly_score` / `pattern_type` /
`confidence_score`, plus `consensus_strength` and whether an aggregated
analysis exists at all (`aggregated_analysis: null` when no survivor). -/
structure ConsensusResult where
  consensus_reached : Bool
  consensus_strength : ℚ
  anomaly_score : ℚ
  pattern_type : String
  confidence_score : ℚ
  has_aggregated : Bool
deriving DecidableEq

/-- `MultiAIAEGESAnalyzer.calculateConsensus` over the collected analyses in
iteration order, with the consensus threshold a parameter (the constructor
default is `consensusThresholdDefault`). -/
def calculateConsensus (threshold : ℚ) (analyses : List ProviderAnalysis) :
    ConsensusResult :=
  let validAnalyses := analyses.filter validAnalysis
  if validAnalyses.isEmpty then
    { consensus_reached := false
      consensus_strength := 0
      anomaly_score := 0
      pattern_type := "unknown"
      confidence_score := 0
      has_aggregated := false }
  else
    let totalWeight := (validAnalyses.map analysisWeight).sum
    let totalWeightedRisk :=
      (validAnalyses.map (fun a => analysisRisk a * analysisWeight a)).sum
    let w := selectConsensusPattern (patternVotes validAnalyses)
    { consensus_reached := decide (totalWeight * threshold ≤ w.2)
      consensus_strength := w.2 / totalWeight
      anomaly_score := if 0 < totalWeight then totalWeightedRisk / totalWeight else 0
      pattern_type := w.1
      confidence_score := min (totalWeight / (validAnalyses.length : ℚ)) 1
      has_aggregated := true }

/-- A provider analysis assembled from raw `(confidence, risk, pattern)`
data, as produced by a successful provider. -/
def mkAnalysis (v : ℚ × ℚ × String) : ProviderAnalysis :=
  { error := false
    confidence_score := some v.1
    risk_indicators := some { anomaly_score := some v.2.1, pattern_type := some v.2.2 } }

/-! ## Concrete scenario data -/

/-- The `critical` test transaction of `generateTestTransaction`:
amount 2100000, account age 0 days, no previous transactions. -/
def criticalTransaction : TransactionRecord :=
  { amount := 2100000
    user_history := some
      { account_age_days := some 0
        previous_transactions := some 0
        total_volume := some 0 } }

/-- A single external provider verdict with confidence 0.85 and risk 0.9. -/
def grokVerdict : ExternalAI :=
  { confidence_score := some (85/100)
    risk_indicators := some { anomaly_score := some (9/10), pattern_type := some "flash_drain" } }

/-- The containment produced by activating on an empty engine at time 0
with severity `critical`. -/
def sampleContainment : Containment :=
  (activateContainment ⟨[], []⟩ "CONT_1" "AEGES_1"
    "Automated containment: critical threat detected" "critical" 0).1

/-- The engine state holding exactly `sampleContainment`. -/
def sampleEngine : ContainmentEngineState :=
  (activateContainment ⟨[], []⟩ "CONT_1" "AEGES_1"
    "Automated containment: critical threat detected" "critical" 0).2

/-! ## Theorems -/

/-- C4: for every transaction record with non-negative amount, the base
risk score lies in [0.1, 0.95]. -/
theorem calculateBaseRisk_bounds (tx : TransactionRecord) (hamount : 0 ≤ tx.amount) :
    1/10 ≤ calculateBaseRisk tx ∧ calculateBaseRisk tx ≤ 95/100 := by
  have h1 : 0 ≤ amountRisk tx := by
    unfold amountRisk; split_ifs <;> norm_num
  have h2 : 0 ≤ accountAgeRisk tx := by
    unfold accountAgeRisk
    cases tx.user_history.bind UserHistory.account_age_days with
    | none => norm_num
    | some age => simp only []; split_ifs <;> norm_num
  have h3 : 0 ≤ txHistoryRisk tx := by
    unfold txHistoryRisk; split_ifs <;> norm_num
  unfold calculateBaseRisk
  constructor
  · exact le_min (by linarith) (by norm_num)
  · exact min_le_right _ _

/-- Witness for C4 at a concrete low-risk transaction. -/
theorem calculateBaseRisk_bounds_witness :
    (0 : ℚ) ≤ (5000 : ℚ)
    ∧ (1/10 ≤ calculateBaseRisk
          { amount := 5000
            user_history := some
              { account_age_days := some 180
                previous_transactions := some 25
                total_volume := some 125000 } }
        ∧ calculateBaseRisk
          { amount := 5000
            user_history := some
              { account_age_days := some 180
                previous_transactions := some 25
                total_volume := some 125000 } } ≤ 95/100) :=
  ⟨by norm_num, calculateBaseRisk_bounds _ (by norm_num)⟩

/-- C3 counterexample: at confidence 0 (which lies in [0,1]) the claimed
formula gives `base` (weight 0), but the code's `confidence_score || 0.5`
defaulting replaces the zero confidence with 0.5, yielding 3/5 instead of
1/2. -/
theorem integrateExternalAI_zero_confidence_cex :
    integrateExternalAI (1/2)
        { confidence_score := some 0
          risk_indicators := some { anomaly_score := some 1, pattern_type := none } }
      ≠ (1/2) * (1 - 0 * (4/10)) + 1 * (0 * (4/10)) := by
  norm_num [integrateExternalAI, jsNumOr]

/-- C3 amended: for base risk and consensus risk score in [0,1] and
consensus confidence strictly positive and at most 1, integration yields
exactly `base*(1-w) + risk*w` with `w = confidence * 0.4`, and the result
lies in [0,1] (a convex combination — the code applies no explicit clamp). -/
theorem integrateExternalAI_formula (base r c : ℚ) (p : Option String)
    (hc0 : 0 < c) (hc1 : c ≤ 1) (hb0 : 0 ≤ base) (hb1 : base ≤ 1)
    (hr0 : 0 ≤ r) (hr1 : r ≤ 1) :
    integrateExternalAI base
        { confidence_score := some c
          risk_indicators := some { anomaly_score := some r, pattern_type := p } }
        = base * (1 - c * (4/10)) + r * (c * (4/10))
    ∧ 0 ≤ base * (1 - c * (4/10)) + r * (c * (4/10))
    ∧ base * (1 - c * (4/10)) + r * (c * (4/10)) ≤ 1 := by
  have hc' : c ≠ 0 := ne_of_gt hc0
  have hw0 : 0 ≤ c * (4/10) := by positivity
  have hw1 : c * (4/10) ≤ 1 := by nlinarith
  have hform : integrateExternalAI base
      { confidence_score := some c
        risk_indicators := some { anomaly_score := some r, pattern_type := p } }
      = base * (1 - c * (4/10)) + r * (c * (4/10)) := by
    unfold integrateExternalAI
    by_cases hr : r = 0 <;> simp [jsNumOr, hc', hr]
  refine ⟨hform, ?_, ?_⟩
  · have hb : 0 ≤ base * (1 - c * (4/10)) := mul_nonneg hb0 (by linarith)
    have hrr : 0 ≤ r * (c * (4/10)) := mul_nonneg hr0 hw0
    linarith
  · have hb : base * (1 - c * (4/10)) ≤ 1 - c * (4/10) :=
      mul_le_of_le_one_left (by linarith) hb1
    have hrr : r * (c * (4/10)) ≤ c * (4/10) :=
      mul_le_of_le_one_left hw0 hr1
    linarith

/-- Witness for C3 (amended) at base 1/2, risk 1/2, confidence 1/2. -/
theorem integrateExternalAI_formula_witness :
    ((0:ℚ) < 1/2 ∧ (1/2:ℚ) ≤ 1 ∧ (0:ℚ) ≤ 1/2)
    ∧ (integrateExternalAI (1/2)
          { confidence_score := some (1/2)
            risk_indicators := some { anomaly_score := some (1/2), pattern_type := none } }
          = (1/2) * (1 - (1/2) * (4/10)) + (1/2) * ((1/2) * (4/10))
        ∧ 0 ≤ (1/2 : ℚ) * (1 - (1/2) * (4/10)) + (1/2) * ((1/2) * (4/10))
        ∧ (1/2 : ℚ) * (1 - (1/2) * (4/10)) + (1/2) * ((1/2) * (4/10)) ≤ 1) :=
  ⟨⟨by norm_num, by norm_num, by norm_num⟩,
   integrateExternalAI_formula (1/2) (1/2) (1/2) none (by norm_num) (by norm_num)
     (by norm_num) (by norm_num) (by norm_num) (by norm_num)⟩

/-- C2: the critical scenario — amount 2100000, account age 0,
no previous transactions, one provider verdict with confidence 0.85 and
risk 0.9 — yields threat level `critical`, action `contain`, and a
containment whose economic state is `neutralized`. -/
theorem scenario_critical_contained_neutralized :
    (processTransactionDecision ⟨[], []⟩ "CONT_1" "AEGES_1" criticalTransaction
        (some grokVerdict) 0).threat_level = "critical"
    ∧ (processTransactionDecision ⟨[], []⟩ "CONT_1" "AEGES_1" criticalTransaction
        (some grokVerdict) 0).action_taken = "contain"
    ∧ ((processTransactionDecision ⟨[], []⟩ "CONT_1" "AEGES_1" criticalTransaction
        (some grokVerdict) 0).containment.map Containment.economic_state)
        = some "neutralized" := by
  have hbase : calculateBaseRisk criticalTransaction = 95/100 := by
    norm_num [calculateBaseRisk, amountRisk, accountAgeRisk, txHistoryRisk,
      criticalTransaction, min_def]
  have hint : enhancedRisk criticalTransaction (some grokVerdict) = 933/1000 := by
    norm_num [enhancedRisk, grokVerdict, integrateExternalAI, jsNumOr, hbase]
  have hlevel : calculateThreatLevel (933/1000) = "critical" := by
    norm_num [calculateThreatLevel]
  refine ?_
  unfold processTransactionDecision
  rw [hint, hlevel]
  refine ⟨rfl, rfl, rfl⟩

/-- C6 counterexample: against an id for which no containment exists at all
(the registry is empty), `initiateRecovery` still succeeds and stores a
recovery request with status `initiated` — no InvalidState failure occurs. -/
theorem initiateRecovery_unchecked_cex :
    (({ activeContainments := [], containmentHistory := [] } :
        ContainmentEngineState).activeContainments.lookup "CONT_MISSING" = none)
    ∧ (initiateRecovery ⟨[], []⟩ "REC_1" "CONT_MISSING" "claimant" "evidence").1.status
        = "initiated"
    ∧ (initiateRecovery ⟨[], []⟩ "REC_1" "CONT_MISSING" "claimant"
        "evidence").2.activeRecoveries.length = 1 :=
  ⟨rfl, rfl, rfl⟩

/-- C6 amended: `initiateRecovery` performs no containment-state validation:
for every containment id — whatever the state of any containment registry,
including ids with no matching containment — it creates and stores a
recovery request with status `initiated` and never fails. -/
theorem initiateRecovery_always_creates (st : RecoveryManagerState)
    (recoveryId containmentId claimantIdentity evidencePackage : String) :
    (initiateRecovery st recoveryId containmentId claimantIdentity
        evidencePackage).1.status = "initiated"
    ∧ (initiateRecovery st recoveryId containmentId claimantIdentity
        evidencePackage).1.containment_id = containmentId
    ∧ (initiateRecovery st recoveryId containmentId claimantIdentity
        evidencePackage).2.activeRecoveries
        = st.activeRecoveries
          ++ [(recoveryId, (initiateRecovery st recoveryId containmentId
                claimantIdentity evidencePackage).1)] :=
  ⟨rfl, rfl, rfl⟩

/-- C7 counterexample: the engine never transitions a containment's status
to `expired`. A containment activated at time 0 and queried after 8 days —
elapsed time strictly beyond the 7-day maximum — still has stored status
`active` and is still reported as an active containment. -/
theorem containment_never_expires_cex :
    maxContainmentDurationMs < 8 * msPerDay - (0 : ℤ)
    ∧ (sampleEngine.activeContainments.lookup "CONT_1").map Containment.status
        = some "active"
    ∧ (getContainmentStatus sampleEngine (some "CONT_1") none none
        (8 * msPerDay) 0).containment_active = true := by
  refine ⟨by decide, by decide, by decide⟩

/-- C7 amended: once an active containment's elapsed time exceeds the 7-day
maximum duration, only the reported remaining time collapses to `P0DT0H`;
the status query still reports the containment active, and no transition to
an expired status exists. -/
theorem containment_active_after_max_duration
    (st : ContainmentEngineState) (cid : String) (c : Containment) (now : ℤ) (randIdx : ℕ)
    (hcid : cid ≠ "")
    (hfound : st.activeContainments.lookup cid = some c)
    (hactive : c.status = "active")
    (helapsed : maxContainmentDurationMs ≤ now - c.activation_time) :
    calculateTimeRemaining c now = "P0DT0H"
    ∧ (getContainmentStatus st (some cid) none none now randIdx).containment_active = true
    ∧ (getContainmentStatus st (some cid) none none now randIdx).time_remaining
        = some "P0DT0H" := by
  have hrem : containmentRemainingMs c now = 0 := by
    unfold containmentRemainingMs
    exact max_eq_left (by linarith)
  have htr : calculateTimeRemaining c now = "P0DT0H" := by
    unfold calculateTimeRemaining
    rw [hrem]
    decide
  have hfind : findContainment st (some cid) none none = some c := by
    unfold findContainment
    simp [jsTruthyStr, hcid, hfound]
  refine ⟨htr, ?_, ?_⟩ <;> unfold getContainmentStatus <;> rw [hfind] <;> simp [htr]

/-- Witness for C7 (amended): the sample containment queried 8 days after
its activation. -/
theorem containment_active_after_max_duration_witness :
    (("CONT_1" : String) ≠ ""
      ∧ sampleEngine.activeContainments.lookup "CONT_1" = some sampleContainment
      ∧ sampleContainment.status = "active"
      ∧ maxContainmentDurationMs ≤ 8 * msPerDay - sampleContainment.activation_time)
    ∧ (calculateTimeRemaining sampleContainment (8 * msPerDay) = "P0DT0H"
        ∧ (getContainmentStatus sampleEngine (some "CONT_1") none none
            (8 * msPerDay) 0).containment_active = true
        ∧ (getContainmentStatus sampleEngine (some "CONT_1") none none
            (8 * msPerDay) 0).time_remaining = some "P0DT0H") :=
  ⟨⟨by decide, by decide, by decide, by decide⟩,
   containment_active_after_max_duration sampleEngine "CONT_1" sampleContainment
     (8 * msPerDay) 0 (by decide) (by decide) (by decide) (by decide)⟩

/-- C8 counterexample: two status queries on the same unmutated containment
state, at the same clock time but with the two different values of the
per-call random draw, return different results (the `investigation_status`
field is freshly randomized on every call). -/
theorem getContainmentStatus_not_idempotent_cex :
    getContainmentStatus sampleEngine (some "CONT_1") none none 0 0
      ≠ getContainmentStatus sampleEngine (some "CONT_1") none none 0 1 := by
  decide

/-- C8 amended: on an unmutated state, repeated status queries agree on the
`containment_active` flag, the economic value, the release requirements and
the message — but `time_remaining` depends on the query clock and
`investigation_status` on the per-call random draw, so full results are
identical only for equal clock readings and equal draws; the query never
mutates the state. -/
theorem getContainmentStatus_stable_fields (st : ContainmentEngineState)
    (cid tid wid : Option String) (t₁ t₂ : ℤ) (r₁ r₂ : ℕ) :
    (getContainmentStatus st cid tid wid t₁ r₁).containment_active
        = (getContainmentStatus st cid tid wid t₂ r₂).containment_active
    ∧ (getContainmentStatus st cid tid wid t₁ r₁).economic_value
        = (getContainmentStatus st cid tid wid t₂ r₂).economic_value
    ∧ (getContainmentStatus st cid tid wid t₁ r₁).release_requirements
        = (getContainmentStatus st cid tid wid t₂ r₂).release_requirements
    ∧ (getContainmentStatus st cid tid wid t₁ r₁).message
        = (getContainmentStatus st cid tid wid t₂ r₂).message := by
  unfold getContainmentStatus
  cases findContainment st cid tid wid <;> exact ⟨rfl, rfl, rfl, rfl⟩

/-- The `forEach`-with-catch accumulation is the map of the individually
caught handler outcomes. -/
theorem runHandlers_eq_map (e : AEGESEvent) (hs : List EventHandler) :
    runHandlers hs e = hs.map (fun h => caughtResult (h e)) := by
  unfold runHandlers
  suffices h : ∀ (l : List EventHandler) (acc : List (Option String)),
      l.foldl (fun acc h => acc ++ [caughtResult (h e)]) acc
        = acc ++ l.map (fun h => caughtResult (h e)) by
    simpa using h hs []
  intro l
  induction l with
  | nil => intro acc; simp
  | cons h t ih => intro acc; simp [ih]

/-- C10: `emit` never throws (it is a total function on states), appends the
event to the history exactly once regardless of handler failures, leaves the
handler registry untouched, and invokes every registered handler for the
event type — each handler's outcome is its own caught result, unaffected by
any other handler throwing. -/
theorem emit_isolates_handler_failures (st : EventManagerState)
    (eventType payload eventId : String) :
    (emit st eventType payload eventId).1.eventHistory
        = st.eventHistory
          ++ [{ type := eventType, payload := payload, event_id := eventId }]
    ∧ (emit st eventType payload eventId).1.eventHandlers = st.eventHandlers
    ∧ (emit st eventType payload eventId).2
        = (handlersFor st eventType).map
            (fun h => caughtResult (h { type := eventType, payload := payload,
                                        event_id := eventId }))
    ∧ (emit st eventType payload eventId).2.length
        = (handlersFor st eventType).length := by
  refine ⟨rfl, rfl, runHandlers_eq_map _ _, ?_⟩
  rw [show (emit st eventType payload eventId).2
      = runHandlers (handlersFor st eventType)
          { type := eventType, payload := payload, event_id := eventId } from rfl]
  rw [runHandlers_eq_map]
  exact List.length_map _ _

/-- Window-counter lookup after a store at the same key. -/
theorem rlGet_rlSet_self (ws : List ((String × ℕ) × ℕ)) (k : String × ℕ) (v : ℕ) :
    rlGet (rlSet ws k v) k = v := by
  induction ws with
  | nil => simp [rlSet, rlGet]
  | cons a rest ih =>
    obtain ⟨ka, va⟩ := a
    show rlGet (if ka = k then (k, v) :: rest else (ka, va) :: rlSet rest k v) k = v
    by_cases hka : ka = k
    · rw [if_pos hka]
      show (if k = k then v else rlGet rest k) = v
      simp
    · rw [if_neg hka]
      show (if ka = k then va else rlGet (rlSet rest k v) k) = v
      rw [if_neg hka, ih]

/-- Window-counter lookup after a store at a different key. -/
theorem rlGet_rlSet_other (ws : List ((String × ℕ) × ℕ)) (k k' : String × ℕ) (v : ℕ)
    (h : k' ≠ k) :
    rlGet (rlSet ws k v) k' = rlGet ws k' := by
  induction ws with
  | nil =>
    show (if k = k' then v else rlGet [] k') = rlGet [] k'
    rw [if_neg (fun hh => h hh.symm)]
  | cons a rest ih =>
    obtain ⟨ka, va⟩ := a
    show rlGet (if ka = k then (k, v) :: rest else (ka, va) :: rlSet rest k v) k'
        = if ka = k' then va else rlGet rest k'
    by_cases hka : ka = k
    · rw [if_pos hka]
      show (if k = k' then v else rlGet rest k') = if ka = k' then va else rlGet rest k'
      rw [if_neg (fun hh => h hh.symm), if_neg (fun hh => h (hka ▸ hh).symm)]
    · rw [if_neg hka]
      show (if ka = k' then va else rlGet (rlSet rest k v) k')
          = if ka = k' then va else rlGet rest k'
      rw [ih]

/-- Recording a request touches exactly the current window's counter. -/
theorem rlGet_recordRequest (c : RateLimitConfig) (ws : List ((String × ℕ) × ℕ))
    (p : String) (t : ℕ) (k : String × ℕ) :
    rlGet (recordRequest (some c) ws p t) k
      = if k = rlWindowKey p c.window t then rlGet ws k + 1 else rlGet ws k := by
  unfold recordRequest
  by_cases h : k = rlWindowKey p c.window t
  · rw [if_pos h, h, rlGet_rlSet_self]
  · rw [if_neg h, rlGet_rlSet_other _ _ _ _ h]

/-- A run of recorded requests adds to each window counter exactly the
number of timestamps that fall into that window. -/
theorem rlGet_recordRequests (c : RateLimitConfig) (p : String) :
    ∀ (ts : List ℕ) (ws : List ((String × ℕ) × ℕ)) (k : String × ℕ),
      rlGet (recordRequests (some c) p ts ws) k
        = rlGet ws k + ts.countP (fun t => decide (k = rlWindowKey p c.window t)) := by
  intro ts
  induction ts with
  | nil => intro ws k; simp [recordRequests]
  | cons t rest ih =>
    intro ws k
    show rlGet (recordRequests (some c) p rest (recordRequest (some c) ws p t)) k = _
    rw [ih, rlGet_recordRequest, List.countP_cons]
    by_cases h : k = rlWindowKey p c.window t <;> simp [h] <;> omega

/-- C5: with a configured limit of N requests per window, once N requests
have been recorded for a provider with timestamps in one window, any
further attempt in that window is rejected (`canMakeRequest` is false),
while an attempt whose timestamp falls in a different window index is
permitted again. -/
theorem rateLimiter_window_exhaustion (N w windowIdx : ℕ) (p : String)
    (ts : List ℕ) (tSame tNext : ℕ)
    (hN : 0 < N)
    (hlen : ts.length = N)
    (hts : ∀ t ∈ ts, t / w = windowIdx)
    (hSame : tSame / w = windowIdx)
    (hNext : tNext / w ≠ windowIdx) :
    canMakeRequest (some ⟨N, w⟩) (recordRequests (some ⟨N, w⟩) p ts []) p tSame = false
    ∧ canMakeRequest (some ⟨N, w⟩) (recordRequests (some ⟨N, w⟩) p ts []) p tNext
        = true := by
  constructor
  · show decide (rlGet (recordRequests (some ⟨N, w⟩) p ts []) (p, tSame / w) < N) = false
    rw [rlGet_recordRequests]
    have hcount : ts.countP
        (fun t => decide ((p, tSame / w) = rlWindowKey p w t)) = ts.length := by
      rw [List.countP_eq_length]
      intro t ht
      simp [rlWindowKey, hts t ht, hSame]
    rw [hcount, hlen]
    show decide (rlGet [] (p, tSame / w) + N < N) = false
    show decide (0 + N < N) = false
    simp
  · show decide (rlGet (recordRequests (some ⟨N, w⟩) p ts []) (p, tNext / w) < N) = true
    rw [rlGet_recordRequests]
    have hcount : ts.countP
        (fun t => decide ((p, tNext / w) = rlWindowKey p w t)) = 0 := by
      rw [List.countP_eq_zero]
      intro t ht
      simp only [rlWindowKey, decide_eq_true_eq]
      intro hcontra
      exact hNext (by rw [Prod.mk.injEq] at hcontra; rw [hcontra.2, hts t ht])
    rw [hcount]
    show decide (rlGet [] (p, tNext / w) + 0 < N) = true
    show decide (0 + 0 < N) = true
    simpa using hN

/-- Witness for C5: limit 1 per 10ms window; one request at t=3 exhausts
window 0; t=5 (window 0) is rejected, t=12 (window 1) is permitted. -/
theorem rateLimiter_window_exhaustion_witness :
    (0 < 1 ∧ ([3] : List ℕ).length = 1 ∧ (∀ t ∈ ([3] : List ℕ), t / 10 = 0)
      ∧ (5 : ℕ) / 10 = 0 ∧ (12 : ℕ) / 10 ≠ 0)
    ∧ (canMakeRequest (some ⟨1, 10⟩) (recordRequests (some ⟨1, 10⟩) "xai" [3] []) "xai" 5
          = false
        ∧ canMakeRequest (some ⟨1, 10⟩) (recordRequests (some ⟨1, 10⟩) "xai" [3] []) "xai" 12
          = true) :=
  ⟨⟨by decide, by decide, by decide, by decide, by decide⟩,
   rateLimiter_window_exhaustion 1 10 0 "xai" [3] 5 12
     (by decide) (by decide) (by decide) (by decide) (by decide)⟩

/-- The winner-selection fold either keeps its seed (when nothing beats it)
or returns the first list entry attaining the maximum value: its value
bounds every entry, and every strictly earlier entry is strictly smaller. -/
theorem foldl_pickMax_first_max (l : List (String × ℚ)) :
    ∀ b : String × ℚ,
      (l.foldl pickMax b = b ∧ ∀ x ∈ l, x.2 ≤ b.2)
      ∨ (∃ i, ∃ hi : i < l.length,
          l.foldl pickMax b = l.get ⟨i, hi⟩
          ∧ b.2 < (l.get ⟨i, hi⟩).2
          ∧ (∀ x ∈ l, x.2 ≤ (l.get ⟨i, hi⟩).2)
          ∧ ∀ j, ∀ hj : j < l.length, j < i →
              (l.get ⟨j, hj⟩).2 < (l.get ⟨i, hi⟩).2) := by
  induction l with
  | nil =>
    intro b
    left
    exact ⟨rfl, by simp⟩
  | cons x xs ih =>
    intro b
    rw [List.foldl_cons]
    by_cases hx : x.2 > b.2
    · rw [show pickMax b x = x from if_pos hx]
      rcases ih x with ⟨heq, hall⟩ | ⟨i, hi, heq, hlt, hall, hfirst⟩
      · right
        refine ⟨0, by simp, ?_, ?_, ?_, ?_⟩
        · exact heq
        · exact hx
        · intro y hy
          rcases List.mem_cons.mp hy with h | h
          · subst h; exact le_refl _
          · exact hall y h
        · intro j hj hji
          exact absurd hji (Nat.not_lt_zero j)
      · right
        refine ⟨i + 1, Nat.succ_lt_succ hi, ?_, ?_, ?_, ?_⟩
        · exact heq
        · exact lt_trans hx hlt
        · intro y hy
          rcases List.mem_cons.mp hy with h | h
          · subst h; exact le_of_lt hlt
          · exact hall y h
        · intro j hj hji
          match j, hj with
          | 0, _ => exact hlt
          | j' + 1, hj' =>
            exact hfirst j' (Nat.lt_of_succ_lt_succ hj') (Nat.lt_of_succ_lt_succ hji)
    · rw [show pickMax b x = b from if_neg hx]
      rcases ih b with ⟨heq, hall⟩ | ⟨i, hi, heq, hlt, hall, hfirst⟩
      · left
        refine ⟨heq, ?_⟩
        intro y hy
        rcases List.mem_cons.mp hy with h | h
        · subst h; exact le_of_not_lt hx
        · exact hall y h
      · right
        refine ⟨i + 1, Nat.succ_lt_succ hi, ?_, ?_, ?_, ?_⟩
        · exact heq
        · exact hlt
        · intro y hy
          rcases List.mem_cons.mp hy with h | h
          · subst h; exact le_trans (le_of_not_lt hx) (le_of_lt hlt)
          · exact hall y h
        · intro j hj hji
          match j, hj with
          | 0, _ => exact lt_of_le_of_lt (le_of_not_lt hx) hlt
          | j' + 1, hj' =>
            exact hfirst j' (Nat.lt_of_succ_lt_succ hj') (Nat.lt_of_succ_lt_succ hji)

/-- On a non-empty vote list with positive tallies, the winner-selection
loop returns the first entry attaining the maximum tally. -/
theorem selectConsensusPattern_first_max (votes : List (String × ℚ))
    (hne : votes ≠ []) (hpos : ∀ x ∈ votes, 0 < x.2) :
    ∃ i, ∃ hi : i < votes.length,
      selectConsensusPattern votes = votes.get ⟨i, hi⟩
      ∧ (∀ x ∈ votes, x.2 ≤ (votes.get ⟨i, hi⟩).2)
      ∧ ∀ j, ∀ hj : j < votes.length, j < i →
          (votes.get ⟨j, hj⟩).2 < (votes.get ⟨i, hi⟩).2 := by
  rcases foldl_pickMax_first_max votes ("unknown", 0) with ⟨_, hall⟩ | ⟨i, hi, h1, _, h3, h4⟩
  · exfalso
    rcases List.exists_mem_of_ne_nil votes hne with ⟨x, hx⟩
    exact absurd (hall x hx) (not_le.mpr (hpos x hx))
  · exact ⟨i, hi, h1, h3, h4⟩

/-- Adding a vote never empties the tally list. -/
theorem bumpVote_ne_nil (votes : List (String × ℚ)) (p : String) (w : ℚ) :
    bumpVote votes p w ≠ [] := by
  cases votes with
  | nil => simp [bumpVote]
  | cons q rest =>
    obtain ⟨qp, qv⟩ := q
    show (if qp = p then (qp, qv + w) :: rest else (qp, qv) :: bumpVote rest p w) ≠ []
    split <;> simp

/-- Adding a positive vote keeps every tally positive. -/
theorem bumpVote_pos (votes : List (String × ℚ)) (p : String) (w : ℚ)
    (hv : ∀ x ∈ votes, 0 < x.2) (hw : 0 < w) :
    ∀ x ∈ bumpVote votes p w, 0 < x.2 := by
  induction votes with
  | nil =>
    intro x hx
    simp only [bumpVote, List.mem_singleton] at hx
    subst hx
    exact hw
  | cons q rest ih =>
    obtain ⟨qp, qv⟩ := q
    intro x hx
    show 0 < x.2
    by_cases h : qp = p
    · rw [show bumpVote ((qp, qv) :: rest) p w = (qp, qv + w) :: rest from if_pos h] at hx
      rcases List.mem_cons.mp hx with h' | h'
      · subst h'
        have : 0 < qv := hv (qp, qv) (List.mem_cons_self _ _)
        show 0 < qv + w
        linarith
      · exact hv x (List.mem_cons_of_mem _ h')
    · rw [show bumpVote ((qp, qv) :: rest) p w = (qp, qv) :: bumpVote rest p w
          from if_neg h] at hx
      rcases List.mem_cons.mp hx with h' | h'
      · subst h'
        exact hv (qp, qv) (List.mem_cons_self _ _)
      · exact ih (fun y hy => hv y (List.mem_cons_of_mem _ hy)) x h'

/-- The vote-collection fold never empties a non-empty accumulator. -/
theorem foldl_voteStep_ne_nil :
    ∀ (l : List ProviderAnalysis) (acc : List (String × ℚ)),
      acc ≠ [] → l.foldl voteStep acc ≠ [] := by
  intro l
  induction l with
  | nil => intro acc h; simpa using h
  | cons a rest ih =>
    intro acc h
    rw [List.foldl_cons]
    apply ih
    unfold voteStep
    cases analysisPattern a with
    | none => exact h
    | some p => exact bumpVote_ne_nil acc p (analysisWeight a)

/-- The vote-collection fold keeps all tallies positive when all weights
are. -/
theorem foldl_voteStep_pos :
    ∀ (l : List ProviderAnalysis) (acc : List (String × ℚ)),
      (∀ x ∈ acc, 0 < x.2) → (∀ a ∈ l, 0 < analysisWeight a) →
      ∀ x ∈ l.foldl voteStep acc, 0 < x.2 := by
  intro l
  induction l with
  | nil => intro acc hacc _; simpa using hacc
  | cons a rest ih =>
    intro acc hacc hwl
    rw [List.foldl_cons]
    apply ih
    · unfold voteStep
      cases analysisPattern a with
      | none => exact hacc
      | some p => exact bumpVote_pos acc p _ hacc (hwl a (List.mem_cons_self _ _))
    · exact fun b hb => hwl b (List.mem_cons_of_mem _ hb)

/-- With every survivor carrying a pattern, a non-empty survivor list yields
a non-empty vote list. -/
theorem patternVotes_ne_nil (l : List ProviderAnalysis) (hne : l ≠ [])
    (hpat : ∀ a ∈ l, (analysisPattern a).isSome) : patternVotes l ≠ [] := by
  cases l with
  | nil => exact absurd rfl hne
  | cons a rest =>
    unfold patternVotes
    rw [List.foldl_cons]
    apply foldl_voteStep_ne_nil
    have hsome := hpat a (List.mem_cons_self _ _)
    unfold voteStep
    cases h : analysisPattern a with
    | none => rw [h] at hsome; exact absurd hsome (by simp)
    | some p => exact bumpVote_ne_nil [] p (analysisWeight a)

/-- All tallies in a vote list over positively weighted survivors are
positive. -/
theorem patternVotes_pos (l : List ProviderAnalysis)
    (hw : ∀ a ∈ l, 0 < analysisWeight a) :
    ∀ x ∈ patternVotes l, 0 < x.2 :=
  foldl_voteStep_pos l [] (by simp) hw

/-- A raw verdict with positive confidence passes the survivor filter. -/
theorem validAnalysis_mkAnalysis (v : ℚ × ℚ × String) (h : 0 < v.1) :
    validAnalysis (mkAnalysis v) = true := by
  simp [validAnalysis, mkAnalysis, h]

/-- A raw verdict's weight is its confidence (positive, so the `|| 0.5`
default does not fire). -/
theorem analysisWeight_mkAnalysis (v : ℚ × ℚ × String) (h : 0 < v.1) :
    analysisWeight (mkAnalysis v) = v.1 := by
  simp [analysisWeight, mkAnalysis, jsNumOr, ne_of_gt h]

/-- A raw verdict's risk score is its anomaly score (the `|| 0` default is
the identity there). -/
theorem analysisRisk_mkAnalysis (v : ℚ × ℚ × String) :
    analysisRisk (mkAnalysis v) = v.2.1 := by
  by_cases h : v.2.1 = 0 <;> simp [analysisRisk, mkAnalysis, jsNumOr, h]

/-- A raw verdict with a non-empty pattern tag votes for that tag. -/
theorem analysisPattern_mkAnalysis (v : ℚ × ℚ × String) (h : v.2.2 ≠ "") :
    analysisPattern (mkAnalysis v) = some v.2.2 := by
  simp [analysisPattern, mkAnalysis, h]

/-- C9: with exactly one valid provider analysis (positive confidence, at
most 1, no error, a non-empty pattern tag), the consensus equals that
provider's verdict exactly: aggregated risk = its risk score, winning
pattern = its pattern, reported confidence = its confidence. -/
theorem calculateConsensus_single_provider (threshold c r : ℚ) (p : String)
    (hc0 : 0 < c) (hc1 : c ≤ 1) (hp : p ≠ "") :
    (calculateConsensus threshold [mkAnalysis (c, r, p)]).anomaly_score = r
    ∧ (calculateConsensus threshold [mkAnalysis (c, r, p)]).pattern_type = p
    ∧ (calculateConsensus threshold [mkAnalysis (c, r, p)]).confidence_score = c := by
  have hc' : c ≠ 0 := ne_of_gt hc0
  have hv := validAnalysis_mkAnalysis (c, r, p) hc0
  have hw := analysisWeight_mkAnalysis (c, r, p) hc0
  have hr := analysisRisk_mkAnalysis (c, r, p)
  have hfilter : [mkAnalysis (c, r, p)].filter validAnalysis = [mkAnalysis (c, r, p)] :=
    List.filter_eq_self.mpr (by intro a ha; rw [List.mem_singleton.mp ha]; exact hv)
  have hpv : patternVotes [mkAnalysis (c, r, p)] = [(p, c)] := by
    unfold patternVotes
    rw [List.foldl_cons, List.foldl_nil]
    unfold voteStep
    rw [analysisPattern_mkAnalysis (c, r, p) hp]
    show bumpVote [] p (analysisWeight (mkAnalysis (c, r, p))) = [(p, c)]
    rw [hw]
    rfl
  have hsel : selectConsensusPattern [(p, c)] = (p, c) := by
    unfold selectConsensusPattern
    rw [List.foldl_cons, List.foldl_nil]
    unfold pickMax
    rw [if_pos (by exact hc0)]
  refine ⟨?_, ?_, ?_⟩ <;>
    simp only [calculateConsensus, hfilter, List.isEmpty_cons, Bool.false_eq_true,
      if_false, List.map_cons, List.map_nil, List.sum_cons, List.sum_nil, add_zero,
      hw, hr, hpv, hsel, List.length_singleton, Nat.cast_one]
  · rw [if_pos hc0, mul_div_assoc, div_self hc', mul_one]
  · rw [div_one]
    exact min_eq_left hc1

/-- Witness for C9 at confidence 3/4, risk 2/5, pattern `wash_trading`. -/
theorem calculateConsensus_single_provider_witness :
    ((0:ℚ) < 3/4 ∧ (3/4:ℚ) ≤ 1 ∧ ("wash_trading" : String) ≠ "")
    ∧ ((calculateConsensus (6/10) [mkAnalysis (3/4, 2/5, "wash_trading")]).anomaly_score
          = 2/5
        ∧ (calculateConsensus (6/10) [mkAnalysis (3/4, 2/5, "wash_trading")]).pattern_type
          = "wash_trading"
        ∧ (calculateConsensus (6/10)
            [mkAnalysis (3/4, 2/5, "wash_trading")]).confidence_score = 3/4) :=
  ⟨⟨by norm_num, by norm_num, by decide⟩,
   calculateConsensus_single_provider (6/10) (3/4) (2/5) "wash_trading"
     (by norm_num) (by norm_num) (by decide)⟩

/-- C1: for every non-empty list of valid provider analyses (no error,
positive confidence, non-empty pattern tag), the parallel consensus returns
risk = Σ(riskᵢ·confᵢ)/Σconfᵢ; the winning pattern is the entry of the
first-seen-ordered vote list with the greatest confidence-weighted tally
(ties keeping the earlier, first-seen pattern); and the agreement flag is
true exactly when the winning tally divided by the total weight is at least
the consensus threshold, whose default value is 0.6. -/
theorem calculateConsensus_weighted_aggregation (threshold : ℚ)
    (vs : List (ℚ × ℚ × String))
    (hne : vs ≠ [])
    (hconf : ∀ v ∈ vs, 0 < v.1)
    (hpat : ∀ v ∈ vs, v.2.2 ≠ "") :
    consensusThresholdDefault = 6/10
    ∧ (calculateConsensus threshold (vs.map mkAnalysis)).has_aggregated = true
    ∧ (calculateConsensus threshold (vs.map mkAnalysis)).anomaly_score
        = (vs.map (fun v => v.2.1 * v.1)).sum / (vs.map (fun v => v.1)).sum
    ∧ ∃ i, ∃ hi : i < (patternVotes (vs.map mkAnalysis)).length,
        (calculateConsensus threshold (vs.map mkAnalysis)).pattern_type
            = ((patternVotes (vs.map mkAnalysis)).get ⟨i, hi⟩).1
        ∧ (∀ x ∈ patternVotes (vs.map mkAnalysis),
            x.2 ≤ ((patternVotes (vs.map mkAnalysis)).get ⟨i, hi⟩).2)
        ∧ (∀ j, ∀ hj : j < (patternVotes (vs.map mkAnalysis)).length, j < i →
            ((patternVotes (vs.map mkAnalysis)).get ⟨j, hj⟩).2
              < ((patternVotes (vs.map mkAnalysis)).get ⟨i, hi⟩).2)
        ∧ ((calculateConsensus threshold (vs.map mkAnalysis)).consensus_reached = true
            ↔ threshold ≤ ((patternVotes (vs.map mkAnalysis)).get ⟨i, hi⟩).2
                / (vs.map (fun v => v.1)).sum) := by
  have hasne : vs.map mkAnalysis ≠ [] := by
    intro h
    exact hne (List.map_eq_nil_iff.mp h)
  have hie : (vs.map mkAnalysis).isEmpty = false := by
    cases h : vs.map mkAnalysis with
    | nil => exact absurd h hasne
    | cons _ _ => rfl
  have hvalid : ∀ a ∈ vs.map mkAnalysis, validAnalysis a = true := by
    intro a ha
    rcases List.mem_map.mp ha with ⟨v, hv, rfl⟩
    exact validAnalysis_mkAnalysis v (hconf v hv)
  have hfilter : (vs.map mkAnalysis).filter validAnalysis = vs.map mkAnalysis :=
    List.filter_eq_self.mpr hvalid
  have hwmap : (vs.map mkAnalysis).map analysisWeight = vs.map (fun v => v.1) := by
    rw [List.map_map]
    exact List.map_congr_left (fun v hv => analysisWeight_mkAnalysis v (hconf v hv))
  have hrmap : (vs.map mkAnalysis).map (fun a => analysisRisk a * analysisWeight a)
      = vs.map (fun v => v.2.1 * v.1) := by
    rw [List.map_map]
    refine List.map_congr_left (fun v hv => ?_)
    show analysisRisk (mkAnalysis v) * analysisWeight (mkAnalysis v) = v.2.1 * v.1
    rw [analysisRisk_mkAnalysis v, analysisWeight_mkAnalysis v (hconf v hv)]
  have hWpos : 0 < (vs.map (fun v => v.1)).sum := by
    refine List.sum_pos _ ?_ ?_
    · intro x hx
      rcases List.mem_map.mp hx with ⟨v, hv, rfl⟩
      exact hconf v hv
    · intro h
      exact hne (List.map_eq_nil_iff.mp h)
  have hwposas : ∀ a ∈ vs.map mkAnalysis, 0 < analysisWeight a := by
    intro a ha
    rcases List.mem_map.mp ha with ⟨v, hv, rfl⟩
    rw [analysisWeight_mkAnalysis v (hconf v hv)]
    exact hconf v hv
  have hpatas : ∀ a ∈ vs.map mkAnalysis, (analysisPattern a).isSome := by
    intro a ha
    rcases List.mem_map.mp ha with ⟨v, hv, rfl⟩
    rw [analysisPattern_mkAnalysis v (hpat v hv)]
    rfl
  have hvne := patternVotes_ne_nil (vs.map mkAnalysis) hasne hpatas
  have hvpos := patternVotes_pos (vs.map mkAnalysis) hwposas
  obtain ⟨i, hi, hsel, hmax, hfirst⟩ :=
    selectConsensusPattern_first_max (patternVotes (vs.map mkAnalysis)) hvne hvpos
  refine ⟨rfl, ?_, ?_, i, hi, ?_, hmax, hfirst, ?_⟩ <;>
    simp only [calculateConsensus, hfilter, hie, Bool.false_eq_true, if_false,
      hwmap, hrmap, hsel]
  · rw [if_pos hWpos]
  · rw [decide_eq_true_iff, le_div_iff₀ hWpos, mul_comm]

/-- Witness for C1: two providers, confidences 1/2 and 1/4, risks 1/3 and
1, patterns `a` and `b`, at the default threshold. -/
theorem calculateConsensus_weighted_aggregation_witness :
    (([((1:ℚ)/2, (1:ℚ)/3, "a"), ((1:ℚ)/4, (1:ℚ), "b")] : List (ℚ × ℚ × String)) ≠ []
      ∧ (∀ v ∈ ([((1:ℚ)/2, (1:ℚ)/3, "a"), ((1:ℚ)/4, (1:ℚ), "b")] :
            List (ℚ × ℚ × String)), 0 < v.1)
      ∧ (∀ v ∈ ([((1:ℚ)/2, (1:ℚ)/3, "a"), ((1:ℚ)/4, (1:ℚ), "b")] :
            List (ℚ × ℚ × String)), v.2.2 ≠ ""))
    ∧ (consensusThresholdDefault = 6/10
      ∧ (calculateConsensus (6/10)
          (([((1:ℚ)/2, (1:ℚ)/3, "a"), ((1:ℚ)/4, (1:ℚ), "b")] :
            List (ℚ × ℚ × String)).map mkAnalysis)).has_aggregated = true
      ∧ (calculateConsensus (6/10)
          (([((1:ℚ)/2, (1:ℚ)/3, "a"), ((1:ℚ)/4, (1:ℚ), "b")] :
            List (ℚ × ℚ × String)).map mkAnalysis)).anomaly_score
          = (([((1:ℚ)/2, (1:ℚ)/3, "a"), ((1:ℚ)/4, (1:ℚ), "b")] :
              List (ℚ × ℚ × String)).map (fun v => v.2.1 * v.1)).sum
            / (([((1:ℚ)/2, (1:ℚ)/3, "a"), ((1:ℚ)/4, (1:ℚ), "b")] :
              List (ℚ × ℚ × String)).map (fun v => v.1)).sum
      ∧ ∃ i, ∃ hi : i < (patternVotes
            (([((1:ℚ)/2, (1:ℚ)/3, "a"), ((1:ℚ)/4, (1:ℚ), "b")] :
              List (ℚ × ℚ × String)).map mkAnalysis)).length,
          (calculateConsensus (6/10)
              (([((1:ℚ)/2, (1:ℚ)/3, "a"), ((1:ℚ)/4, (1:ℚ), "b")] :
                List (ℚ × ℚ × String)).map mkAnalysis)).pattern_type
              = ((patternVotes
                  (([((1:ℚ)/2, (1:ℚ)/3, "a"), ((1:ℚ)/4, (1:ℚ), "b")] :
                    List (ℚ × ℚ × String)).map mkAnalysis)).get ⟨i, hi⟩).1
          ∧ (∀ x ∈ patternVotes
                (([((1:ℚ)/2, (1:ℚ)/3, "a"), ((1:ℚ)/4, (1:ℚ), "b")] :
                  List (ℚ × ℚ × String)).map mkAnalysis),
              x.2 ≤ ((patternVotes
                  (([((1:ℚ)/2, (1:ℚ)/3, "a"), ((1:ℚ)/4, (1:ℚ), "b")] :
                    List (ℚ × ℚ × String)).map mkAnalysis)).get ⟨i, hi⟩).2)
          ∧ (∀ j, ∀ hj : j < (patternVotes
                (([((1:ℚ)/2, (1:ℚ)/3, "a"), ((1:ℚ)/4, (1:ℚ), "b")] :
                  List (ℚ × ℚ × String)).map mkAnalysis)).length, j < i →
              ((patternVotes
                  (([((1:ℚ)/2, (1:ℚ)/3, "a"), ((1:ℚ)/4, (1:ℚ), "b")] :
                    List (ℚ × ℚ × String)).map mkAnalysis)).get ⟨j, hj⟩).2
                < ((patternVotes
                    (([((1:ℚ)/2, (1:ℚ)/3, "a"), ((1:ℚ)/4, (1:ℚ), "b")] :
                      List (ℚ × ℚ × String)).map mkAnalysis)).get ⟨i, hi⟩).2)
          ∧ ((calculateConsensus (6/10)
                (([((1:ℚ)/2, (1:ℚ)/3, "a"), ((1:ℚ)/4, (1:ℚ), "b")] :
                  List (ℚ × ℚ × String)).map mkAnalysis)).consensus_reached = true
              ↔ (6:ℚ)/10 ≤ ((patternVotes
                  (([((1:ℚ)/2, (1:ℚ)/3, "a"), ((1:ℚ)/4, (1:ℚ), "b")] :
                    List (ℚ × ℚ × String)).map mkAnalysis)).get ⟨i, hi⟩).2
                  / (([((1:ℚ)/2, (1:ℚ)/3, "a"), ((1:ℚ)/4, (1:ℚ), "b")] :
                    List (ℚ × ℚ × String)).map (fun v => v.1)).sum)) :=
  ⟨⟨by simp, by intro v hv; fin_cases hv <;> norm_num,
    by intro v hv; fin_cases hv <;> decide⟩,
   calculateConsensus_weighted_aggregation (6/10)
     [((1:ℚ)/2, (1:ℚ)/3, "a"), ((1:ℚ)/4, (1:ℚ), "b")]
     (by simp) (by intro v hv; fin_cases hv <;> norm_num)
     (by intro v hv; fin_cases hv <;> decide)⟩

end AEGES
